import Mathlib

/-!
Verification development for the Brand Guardian video-audit pipeline.

The definitions below are a shallow embedding of the repository's Python
sources:

  * `backend/src/graph/nodes.py`    — `index_video_node`, `audio_content_node`
  * `backend/src/graph/workflow.py` — the two-node linear graph
  * `backend/src/api/server.py`     — the initial pipeline state
  * `backend/src/services/video_indexer.py` — `wait_for_processing`,
    `extract_data`

Python dictionaries holding parsed JSON are embedded as the inductive type
`Json`; Python exceptions are embedded as `Except String`; the external
collaborators (YouTube download, Azure upload, the indexing job, the vector
store and the language model) are embedded as explicit oracle parameters,
since the code only consumes their results.
-/

namespace BrandGuardian

/-- Embedding of a parsed Python/JSON value (the result of `json.loads` or
`response.json()`).  Numbers are restricted to integers: every numeric
literal appearing in this development is an integer, and the embedded
parser rejects the float forms rather than mis-modelling them.  Objects are
association lists in insertion order with distinct keys, as produced by
Python dicts. -/
inductive Json where
  | null : Json
  | bool (b : Bool) : Json
  | num (n : Int) : Json
  | str (s : String) : Json
  | arr (xs : List Json) : Json
  | obj (kvs : List (String × Json)) : Json

/-- Embedding of Python `d.get(k)` on a dict represented as an association
list: the value of the first matching key, if any. -/
def jlookup (kvs : List (String × Json)) (k : String) : Option Json :=
  match kvs with
  | [] => none
  | (k2, v) :: t => if k2 = k then some v else jlookup t k

/-- Embedding of Python `d.get(k, default)`. -/
def jlookupD (kvs : List (String × Json)) (k : String) (d : Json) : Json :=
  (jlookup kvs k).getD d

/-- Insert-or-replace for object construction: Python dicts keep the first
insertion position of a key and let a later duplicate replace the value. -/
def insertKV (kvs : List (String × Json)) (k : String) (v : Json) :
    List (String × Json) :=
  match kvs with
  | [] => [(k, v)]
  | (k2, v2) :: t => if k2 = k then (k2, v) :: t else (k2, v2) :: insertKV t k v

/-! ### Characters used by the scanners

Special characters are produced by code point to keep the file free of
delicate literals. -/

def quoteC : Char := Char.ofNat 34
def bslashC : Char := Char.ofNat 92
def lbraceC : Char := Char.ofNat 123
def rbraceC : Char := Char.ofNat 125
def lbrackC : Char := Char.ofNat 91
def rbrackC : Char := Char.ofNat 93
def commaC : Char := Char.ofNat 44
def colonC : Char := Char.ofNat 58
def minusC : Char := Char.ofNat 45
def slashC : Char := Char.ofNat 47
def btickC : Char := Char.ofNat 96

def isJsonWs (c : Char) : Bool :=
  c = ' ' || c = '\n' || c = '\t' || c = '\r'

def skipWs (cs : List Char) : List Char :=
  match cs with
  | [] => []
  | c :: t => if isJsonWs c then skipWs t else c :: t

/-! ### Embedding of `json.loads`

A recursive-descent reader over the character list, fuelled by the input
length.  It covers the JSON subset exercised by this repository: `null`,
booleans, integer numbers, strings with the single-character escapes,
arrays and objects; float forms and `\u` escapes are rejected with an
error (a modelling restriction, noted on `Json`).  Like `json.loads`, it
requires the entire input to be consumed and lets a duplicate object key
replace the earlier value. -/

def parseStringBody (fuel : Nat) (acc : List Char) (cs : List Char) :
    Except String (String × List Char) :=
  match fuel with
  | 0 => .error "recursion limit"
  | fuel + 1 =>
    match cs with
    | [] => .error "Unterminated string"
    | c :: rest =>
      if c = quoteC then .ok (String.mk acc.reverse, rest)
      else if c = bslashC then
        match rest with
        | [] => .error "Unterminated string"
        | e :: rest2 =>
          if e = quoteC then parseStringBody fuel (quoteC :: acc) rest2
          else if e = bslashC then parseStringBody fuel (bslashC :: acc) rest2
          else if e = slashC then parseStringBody fuel (slashC :: acc) rest2
          else if e = 'n' then parseStringBody fuel ('\n' :: acc) rest2
          else if e = 't' then parseStringBody fuel ('\t' :: acc) rest2
          else if e = 'r' then parseStringBody fuel ('\r' :: acc) rest2
          else if e = 'b' then parseStringBody fuel (Char.ofNat 8 :: acc) rest2
          else if e = 'f' then parseStringBody fuel (Char.ofNat 12 :: acc) rest2
          else .error "Unsupported escape"
      else parseStringBody fuel (c :: acc) rest

def readDigits (acc : Nat) (cs : List Char) : Nat × List Char :=
  match cs with
  | [] => (acc, [])
  | c :: t =>
    if c.isDigit then readDigits (acc * 10 + (c.toNat - 48)) t else (acc, c :: t)

def parseNumber (cs : List Char) : Except String (Json × List Char) :=
  let (neg, cs1) :=
    match cs with
    | c :: t => if c = minusC then (true, t) else (false, cs)
    | [] => (false, cs)
  match cs1 with
  | c :: _ =>
    if c.isDigit then
      let (n, rest) := readDigits 0 cs1
      match rest with
      | r :: _ =>
        if r = '.' || r = 'e' || r = 'E' then .error "Unsupported number form"
        else .ok (.num (if neg then -(n : Int) else (n : Int)), rest)
      | [] => .ok (.num (if neg then -(n : Int) else (n : Int)), rest)
    else .error "Expecting value"
  | [] => .error "Expecting value"

mutual

def parseValue (fuel : Nat) (cs : List Char) :
    Except String (Json × List Char) :=
  match fuel with
  | 0 => .error "recursion limit"
  | fuel + 1 =>
    match skipWs cs with
    | [] => .error "Expecting value"
    | c :: rest =>
      if c = lbraceC then parseObjBody fuel rest []
      else if c = lbrackC then parseArrBody fuel rest []
      else if c = quoteC then
        match parseStringBody fuel [] rest with
        | .ok (s, r) => .ok (.str s, r)
        | .error e => .error e
      else if c = 't' then
        match rest with
        | 'r' :: 'u' :: 'e' :: r => .ok (.bool true, r)
        | _ => .error "Expecting value"
      else if c = 'f' then
        match rest with
        | 'a' :: 'l' :: 's' :: 'e' :: r => .ok (.bool false, r)
        | _ => .error "Expecting value"
      else if c = 'n' then
        match rest with
        | 'u' :: 'l' :: 'l' :: r => .ok (.null, r)
        | _ => .error "Expecting value"
      else parseNumber (c :: rest)

def parseArrBody (fuel : Nat) (cs : List Char) (acc : List Json) :
    Except String (Json × List Char) :=
  match fuel with
  | 0 => .error "recursion limit"
  | fuel + 1 =>
    match skipWs cs with
    | [] => .error "Expecting value"
    | c :: rest =>
      if c = rbrackC && acc.isEmpty then .ok (.arr [], rest)
      else
        match parseValue fuel (c :: rest) with
        | .error e => .error e
        | .ok (v, r1) =>
          match skipWs r1 with
          | [] => .error "Expecting delimiter"
          | d :: r2 =>
            if d = commaC then parseArrBody fuel r2 (acc ++ [v])
            else if d = rbrackC then .ok (.arr (acc ++ [v]), r2)
            else .error "Expecting delimiter"

def parseObjBody (fuel : Nat) (cs : List Char) (acc : List (String × Json)) :
    Except String (Json × List Char) :=
  match fuel with
  | 0 => .error "recursion limit"
  | fuel + 1 =>
    match skipWs cs with
    | [] => .error "Expecting property name"
    | c :: rest =>
      if c = rbraceC && acc.isEmpty then .ok (.obj [], rest)
      else if c = quoteC then
        match parseStringBody fuel [] rest with
        | .error e => .error e
        | .ok (k, r1) =>
          match skipWs r1 with
          | [] => .error "Expecting colon"
          | d :: r2 =>
            if d = colonC then
              match parseValue fuel r2 with
              | .error e => .error e
              | .ok (v, r3) =>
                match skipWs r3 with
                | [] => .error "Expecting delimiter"
                | d2 :: r4 =>
                  if d2 = commaC then parseObjBody fuel r4 (insertKV acc k v)
                  else if d2 = rbraceC then .ok (.obj (insertKV acc k v), r4)
                  else .error "Expecting delimiter"
            else .error "Expecting colon"
      else .error "Expecting property name"

end

/-- Embedding of `json.loads`: parse one value and require the remainder to
be whitespace. -/
def jsonLoads (s : String) : Except String Json :=
  match parseValue (2 * s.length + 8) s.data with
  | .error e => .error e
  | .ok (v, rest) =>
    if (skipWs rest).isEmpty then .ok v else .error "Extra data"

/-- Embedding of Python `str.strip()`. -/
def pyStrip (s : String) : String :=
  String.mk (((s.data.dropWhile Char.isWhitespace).reverse.dropWhile
    Char.isWhitespace).reverse)

/-- Embedding of Python `needle in haystack` (substring containment). -/
def containsSub (hay : List Char) (needle : List Char) : Bool :=
  match hay with
  | [] => needle.isEmpty
  | _ :: t => needle.isPrefixOf hay || containsSub t needle

/-! ### The fenced-code-block regular expression

`audio_content_node` runs, verbatim from `nodes.py`:

    if "``" in content:
        content = re.search(r"```(?:json)?(.?)```", content, re.DOTALL).group(1)

The pattern is embedded exactly as written — three backticks, an optional
literal `json`, a group matching AT MOST ONE arbitrary character (the
pattern says `(.?)`, not `(.*?)`), and three closing backticks —
with the search semantics of `re.search`: leftmost starting position
first, and at each position the greedy alternatives in order (consume
`json` before not, one payload character before none). -/

/-- Consume three backticks, returning the remainder. -/
def threeTicks (cs : List Char) : Option (List Char) :=
  match cs with
  | a :: b :: c :: r =>
    if a = btickC && b = btickC && c = btickC then some r else none
  | _ => none

/-- Match `(.?)` followed by three closing backticks, returning the group:
greedy, so one character is tried before zero. -/
def tickPayload (cs : List Char) : Option (List Char) :=
  (match cs with
   | c :: r => if (threeTicks r).isSome then some [c] else none
   | [] => none)
  <|> (if (threeTicks cs).isSome then some [] else none)

/-- Match `(?:json)?(.?)` + three backticks against the text following the
opening three backticks: the optional `json` is greedy. -/
def fenceAfter (cs : List Char) : Option (List Char) :=
  match cs with
  | 'j' :: 's' :: 'o' :: 'n' :: r => tickPayload r <|> tickPayload cs
  | _ => tickPayload cs

/-- Embedding of `re.search` for the fence pattern: try each start
position left to right. -/
def reSearchFence (cs : List Char) : Option (List Char) :=
  match cs with
  | [] => none
  | _ :: t =>
    (match threeTicks cs with
     | some rest => fenceAfter rest
     | none => none)
    <|> reSearchFence t

/-- The two-backtick trigger string of the `if "``" in content` check. -/
def doubleTick : List Char := [btickC, btickC]

/-- Embedding of the fence-stripping step of `audio_content_node`
(`nodes.py` lines 119-120).  When the double-backtick trigger fires and
the regular expression finds no match, `re.search` returns `None` and
`.group(1)` raises `AttributeError`; the error is the `Except.error`
branch here, caught further up by the node's `try`. -/
def fenceStep (content : String) : Except String String :=
  if containsSub content.data doubleTick then
    match reSearchFence content.data with
    | some g => .ok (String.mk g)
    | none => .error "AttributeError: NoneType object has no attribute group"
  else .ok content

/-! ### Pipeline state

`VideoAuditState` itself lives in `backend/src/graph/state.py`, which is
not among the sources; its field set is reconstructed from the accesses in
`nodes.py` and `server.py` and from the specification's AuditState record.
A field holds `none` when the corresponding key is absent from the
LangGraph state.  Values that the code only ever moves around (the parsed
compliance results, status and report) are kept as raw `Json`, exactly as
the duck-typed Python code does. -/

structure AuditState where
  video_url : Option String := none
  video_id : Option String := none
  transcript : Option String := none
  ocr_text : Option (List Json) := none
  video_metadata : Option Json := none
  compliance_results : Option Json := none
  final_status : Option Json := none
  final_report : Option Json := none
  errors : Option (List String) := none

/-- Metadata block produced by `extract_data` (`video_indexer.py`). -/
structure VIMetadata where
  duration : Option Json := none
  video_id : Option Json := none
  platform : String := "youtube"

/-- A partial state update, as returned by a LangGraph node: `none` means
the key is absent from the returned dictionary. -/
structure StateUpdate where
  transcript : Option String := none
  ocr_text : Option (List Json) := none
  metadata : Option VIMetadata := none
  compliance_results : Option Json := none
  final_status : Option Json := none
  final_report : Option Json := none
  errors : Option (List String) := none

/-- Modelled from the spec: merging a node's returned update into the
graph state.  `state.py` (the `VideoAuditState` schema with its channel
reducers) is not among the sources; per the specification, every field is
overwritten by a returned key except `errors`, which accumulates
("pipeline never clears previous entries, only appends").  The `metadata`
key returned by the extraction node matches no state field (the state
reads `video_metadata`), so it updates nothing. -/
def applyUpdate (s : AuditState) (u : StateUpdate) : AuditState :=
  { s with
    transcript := u.transcript <|> s.transcript
    ocr_text := u.ocr_text <|> s.ocr_text
    compliance_results := u.compliance_results <|> s.compliance_results
    final_status := u.final_status <|> s.final_status
    final_report := u.final_report <|> s.final_report
    errors :=
      match u.errors with
      | some es => some ((s.errors.getD []) ++ es)
      | none => s.errors }

/-- The initial state built by `audit_video` in `server.py`: the request
URL, a short correlation id, and empty `compliance_results` / `errors`. -/
def initial_inputs (url vid : String) : AuditState :=
  { video_url := some url
    video_id := some vid
    compliance_results := some (.arr [])
    errors := some [] }

/-! ### `extract_data` (`video_indexer.py` lines 253-291) -/

/-- Embedding of Python `d.get(k)`: `AttributeError` when the receiver is
not a dict. -/
def pyDictGet (j : Json) (k : String) : Except String (Option Json) :=
  match j with
  | .obj kvs => .ok (jlookup kvs k)
  | _ => .error "AttributeError: object has no attribute get"

/-- Embedding of Python `d.get(k, default)`. -/
def pyDictGetD (j : Json) (k : String) (d : Json) : Except String Json :=
  (pyDictGet j k).map (fun o => o.getD d)

/-- Embedding of iterating a Python value in a `for` loop; the code only
ever iterates JSON arrays. -/
def asList (j : Json) : Except String (List Json) :=
  match j with
  | .arr xs => .ok xs
  | _ => .error "TypeError: object is not iterable"

/-- Embedding of using a Python value where `str` is required
(`" ".join`). -/
def asStr (j : Json) : Except String String :=
  match j with
  | .str s => .ok s
  | _ => .error "TypeError: expected str instance"

/-- Left-to-right effectful map, the shape of the appending `for` loops of
`extract_data`. -/
def mapExcept (f : α → Except String β) : List α → Except String (List β)
  | [] => .ok []
  | a :: l => do
    let b ← f a
    let bs ← mapExcept f l
    .ok (b :: bs)

/-- One iteration of the outer `for video in videos` loop: read
`video.get("insights", {})`, then collect `t.get("text", "")` over
`insights.get("transcript", [])` and over `insights.get("ocr", [])`, in
that order. -/
def videoInsights (video : Json) : Except String (List Json × List Json) := do
  let insights ← pyDictGetD video "insights" (.obj [])
  let ts ← asList (← pyDictGetD insights "transcript" (.arr []))
  let tx ← mapExcept (fun t => pyDictGetD t "text" (.str "")) ts
  let os ← asList (← pyDictGetD insights "ocr" (.arr []))
  let ox ← mapExcept (fun o => pyDictGetD o "text" (.str "")) os
  .ok (tx, ox)

/-- Result shape of `extract_data`: the keys of the returned dict. -/
structure ExtractResult where
  transcript : String
  ocr_text : List Json
  metadata : VIMetadata

/-- Embedding of `VideoIndexerService.extract_data`: flatten transcript
fragments across all videos into one space-joined string, collect the OCR
fragments in order, and read duration and source id with defaulting
(`vi_json.get("summarizedInsights", {}).get("duration")`,
`vi_json.get("id")`).  The `" ".join` runs after the loops, when the
result dict is built, and is where a non-string fragment value would
raise. -/
def extract_data (vi_json : Json) : Except String ExtractResult := do
  let videos ← asList (← pyDictGetD vi_json "videos" (.arr []))
  let pairs ← mapExcept videoInsights videos
  let tS ← mapExcept asStr (pairs.map Prod.fst).flatten
  let sumJ ← pyDictGetD vi_json "summarizedInsights" (.obj [])
  let dur ← pyDictGet sumJ "duration"
  let vid ← pyDictGet vi_json "id"
  .ok { transcript := String.intercalate " " tS
        ocr_text := (pairs.map Prod.snd).flatten
        metadata := { duration := dur, video_id := vid, platform := "youtube" } }

/-! ### `wait_for_processing` (`video_indexer.py` lines 200-247)

The poll loop is driven by the sequence of HTTP responses the service
returns; the embedding consumes a list of stubbed responses and reports
the outcome together with the number of polls issued.  An exhausted list
means the loop was still polling. -/

/-- One stubbed response of the status-poll GET. -/
structure PollResponse where
  status_code : Nat
  data : Json

inductive PollOutcome where
  /-- State `Processed`: the raw payload is returned. -/
  | processed (payload : Json)
  /-- State `Failed`: `raise Exception("Video indexing failed")`. -/
  | procFailed
  /-- State `Quarantined`: `raise Exception("Video quarantined")`. -/
  | quarantined
  /-- Non-200 response: `raise Exception(f"Failed to get status: ...")`. -/
  | transient
  /-- `data.get("state")` on a non-dict body: uncaught `AttributeError`. -/
  | attrError
  /-- The stub list ran out while the loop was still polling. -/
  | stillPolling

/-- The `state` field the loop reads: `data.get("state")`. -/
def pollState (r : PollResponse) : Option Json :=
  match r.data with
  | .obj kvs => jlookup kvs "state"
  | _ => none

/-- Embedding of `wait_for_processing`, returning the outcome and the
number of polls issued. -/
def wait_for_processing (resps : List PollResponse) : PollOutcome × Nat :=
  match resps with
  | [] => (.stillPolling, 0)
  | r :: rs =>
    if r.status_code ≠ 200 then (.transient, 1)
    else
      match r.data with
      | .obj kvs =>
        match jlookup kvs "state" with
        | some (.str s) =>
          if s = "Processed" then (.processed r.data, 1)
          else if s = "Failed" then (.procFailed, 1)
          else if s = "Quarantined" then (.quarantined, 1)
          else
            let (o, n) := wait_for_processing rs
            (o, n + 1)
        | _ =>
          let (o, n) := wait_for_processing rs
          (o, n + 1)
      | _ => (.attrError, 1)

/-! ### `audio_content_node` (`nodes.py` lines 52-134)

The node first short-circuits on an empty (or missing) transcript.
Otherwise it builds the retrieval query and the prompt and calls the
language model once; the transport of that call and of the vector-store
search is external, so the model's reply text is an oracle parameter
`llmContent` (the `response.content` string), and the returned `Nat`
counts the language-model invocations issued by the node (0 on the
short-circuit path, 1 otherwise). -/

/-- The `try` block of `audio_content_node` from `response.content`
onwards: fence stripping, `json.loads(content.strip())`, and the
defaulted `.get` reads; any raised error lands in the `except` clause,
which records `errors=[str(e)]` and `final_status="FAIL"`. -/
def parsedResponse (content : String) : Except String Json :=
  match fenceStep content with
  | .error e => .error e
  | .ok c => jsonLoads (pyStrip c)

def auditParse (content : String) : StateUpdate :=
  match parsedResponse content with
  | .error e => { errors := some [e], final_status := some (.str "FAIL") }
  | .ok (.obj kvs) =>
    { compliance_results := some (jlookupD kvs "compliance_results" (.arr []))
      final_status := some (jlookupD kvs "status" (.str "FAIL"))
      final_report := some (jlookupD kvs "final_report" (.str "No report generated")) }
  | .ok _ =>
    { errors := some ["AttributeError: object has no attribute get"]
      final_status := some (.str "FAIL") }

/-- Embedding of `audio_content_node`.  `state.get("transcript", "")`
followed by `if not transcript` is the emptiness test on the defaulted
string. -/
def audio_content_node (llmContent : String) (state : AuditState) :
    StateUpdate × Nat :=
  if state.transcript.getD "" = "" then
    ({ final_status := some (.str "FAIL")
       final_report :=
         some (.str "Audit skipped because video processing failed (No transcript)") }, 0)
  else
    (auditParse llmContent, 1)

/-! ### `index_video_node` (`nodes.py` lines 16-50)

The node's external calls — constructing `VideoIndexerService` (which
raises when environment variables are missing), the YouTube download, the
upload, and the poll loop — are embedded as an environment of stubbed
outcomes; `extract_data` runs for real on the polled payload.  Every
raised error is caught by the node's single `try`/`except`. -/

structure IndexEnv where
  /-- Outcome of `VideoIndexerService()` (missing-variable check). -/
  initOutcome : Except String Unit
  /-- Outcome of `download_youtube_video` (the local path). -/
  downloadOutcome : Except String String
  /-- Outcome of `upload_video` (the Azure video id). -/
  uploadOutcome : Except String String
  /-- Outcome of `wait_for_processing` (the raw insights payload). -/
  waitOutcome : Except String Json

/-- The body of the `try` block of `index_video_node`: service
construction, the URL check (`"youtube.com" in video_url or "youtu.be" in
video_url`, raising the fixed message on anything else), download, upload,
the poll loop and `extract_data`.  The local-file cleanup between upload
and polling is a filesystem side effect with no bearing on the state. -/
def runIndexer (env : IndexEnv) (video_url : Option String) :
    Except String ExtractResult := do
  let _ ← env.initOutcome
  match video_url with
  | none => .error "TypeError: argument of type NoneType is not iterable"
  | some u =>
    if containsSub u.data ("youtube.com").data
        || containsSub u.data ("youtu.be").data then
      let _local ← env.downloadOutcome
      let _azureId ← env.uploadOutcome
      let raw ← env.waitOutcome
      extract_data raw
    else
      .error "Please provide a valid URL for this test."

/-- Embedding of `index_video_node`: on success the node returns the
`extract_data` dict (keys `transcript`, `ocr_text`, `metadata`); on any
exception it returns the fixed failure record with `errors=[str(e)]`,
`final_status="FAIL"`, `transcript=""` and `ocr_text=[]`. -/
def index_video_node (env : IndexEnv) (state : AuditState) : StateUpdate :=
  match runIndexer env state.video_url with
  | .ok clean =>
    { transcript := some clean.transcript
      ocr_text := some clean.ocr_text
      metadata := some clean.metadata }
  | .error e =>
    { errors := some [e]
      final_status := some (.str "FAIL")
      transcript := some ""
      ocr_text := some [] }

/-- Embedding of `create_graph` + `graph.invoke`: the compiled graph runs
`indexer` then, over an unconditional edge, `auditor`, merging each node's
returned update into the state.  The second component counts language-model
invocations. -/
def runPipeline (env : IndexEnv) (llmContent : String) (init : AuditState) :
    AuditState × Nat :=
  let s1 := applyUpdate init (index_video_node env init)
  let (u2, n) := audio_content_node llmContent s1
  (applyUpdate s1 u2, n)

/-! ### Structured Video Indexer payloads

A description of the raw-insights JSON in which every field the code reads
may independently be present or absent, and each present field has the
shape the external service documents.  `encodePayload` renders such a
description as the JSON value the service would return; quantifying over
`VIPayload` quantifies over all well-shaped payloads with arbitrary
missing fields. -/

/-- A transcript or OCR fragment; its `text` key may be absent. -/
structure VIFragment where
  text : Option String

/-- The `insights` object of one video; either fragment list may be
absent. -/
structure VIInsights where
  transcript : Option (List VIFragment)
  ocr : Option (List VIFragment)

/-- One element of the `videos` array; its `insights` key may be
absent. -/
structure VIVideo where
  insights : Option VIInsights

/-- A whole raw-insights payload; every top-level key may be absent, and
`duration` inside `summarizedInsights` may itself be absent. -/
structure VIPayload where
  videos : Option (List VIVideo)
  summarizedInsights : Option (Option Json)
  id : Option String

def encodeFragment (f : VIFragment) : Json :=
  .obj (match f.text with
        | some s => [("text", .str s)]
        | none => [])

def encodeInsights (i : VIInsights) : Json :=
  .obj ((match i.transcript with
         | some l => [("transcript", Json.arr (l.map encodeFragment))]
         | none => []) ++
        (match i.ocr with
         | some l => [("ocr", Json.arr (l.map encodeFragment))]
         | none => []))

def encodeVideo (v : VIVideo) : Json :=
  .obj (match v.insights with
        | some i => [("insights", encodeInsights i)]
        | none => [])

def encodePayload (p : VIPayload) : Json :=
  .obj ((match p.videos with
         | some vs => [("videos", Json.arr (vs.map encodeVideo))]
         | none => []) ++
        (match p.summarizedInsights with
         | some d =>
           [("summarizedInsights",
             Json.obj (match d with
                       | some dv => [("duration", dv)]
                       | none => []))]
         | none => []) ++
        (match p.id with
         | some s => [("id", Json.str s)]
         | none => []))

/-- The transcript fragments the code visits for one video, after all the
defaulting (`insights` absent means no fragments, `text` absent means the
empty string). -/
def VIVideo.tTexts (v : VIVideo) : List String :=
  ((v.insights.bind VIInsights.transcript).getD []).map (fun f => f.text.getD "")

/-- The OCR fragments the code visits for one video. -/
def VIVideo.oTexts (v : VIVideo) : List String :=
  ((v.insights.bind VIInsights.ocr).getD []).map (fun f => f.text.getD "")

/-! ### Concrete inputs used by the witnesses and counterexamples -/

/-- A well-formed raw-insights payload with one video, one transcript
fragment and no OCR. -/
def demoPayload : Json :=
  .obj [("videos", .arr [.obj [("insights",
    .obj [("transcript", .arr [.obj [("text", .str "hello")]]),
          ("ocr", .arr [])])]])]

/-- An environment in which every external call of the extraction node
succeeds and the indexing job returns `demoPayload`. -/
def envOkDemo : IndexEnv :=
  { initOutcome := .ok ()
    downloadOutcome := .ok "temp_audit_video.mp4"
    uploadOutcome := .ok "az1"
    waitOutcome := .ok demoPayload }

/-- The specification's example of a well-formed adjudicator response. -/
def contentPassDemo : String :=
  "\x7b\"status\":\"PASS\",\"compliance_results\":[],\"final_report\":\"ok\"\x7d"

/-- The same response wrapped in a ```json fenced code block. -/
def contentPassFenced : String :=
  "```json\n\x7b\"status\":\"PASS\",\"compliance_results\":[],\"final_report\":\"ok\"\x7d\n```"

/-- A response whose status is neither PASS nor FAIL. -/
def contentUnknownDemo : String := "\x7b\"status\":\"UNKNOWN\"\x7d"

/-- A single CRITICAL compliance issue, as parsed JSON. -/
def issueCritical : Json :=
  .obj [("category", .str "c"), ("severity", .str "CRITICAL"),
        ("description", .str "d")]

/-- A response claiming PASS while carrying a non-empty
`compliance_results` array. -/
def contentPassWithIssue : String :=
  String.join
    ["\x7b\"status\":\"PASS\",\"compliance_results\":[\x7b\"category\":\"c\",",
     "\"severity\":\"CRITICAL\",\"description\":\"d\"\x7d],",
     "\"final_report\":\"r\"\x7d"]

/-- A valid JSON object missing the required `status` key but carrying a
non-default report. -/
def contentMissingStatus : String := "\x7b\"final_report\":\"x\"\x7d"

/-- A response whose single issue has the unknown severity `BANANA`. -/
def contentBadSeverity : String :=
  String.join
    ["\x7b\"status\":\"FAIL\",\"compliance_results\":[\x7b\"category\":\"c\",",
     "\"severity\":\"BANANA\",\"description\":\"d\"\x7d],",
     "\"final_report\":\"r\"\x7d"]

/-- The issue of `contentBadSeverity`, as parsed JSON. -/
def issueBadSeverity : Json :=
  .obj [("category", .str "c"), ("severity", .str "BANANA"),
        ("description", .str "d")]

/-- The initial state of a demo request, as `server.py` builds it. -/
def initDemo : AuditState :=
  initial_inputs "https://www.youtube.com/watch?v=abc" "vid_1"

/-! ## Theorems -/

/-- Every path of the adjudicator's parse step sets `final_status`. -/
theorem auditParse_final_status_isSome (c : String) :
    ∃ j, (auditParse c).final_status = some j := by
  unfold auditParse
  split
  · exact ⟨_, rfl⟩
  · exact ⟨_, rfl⟩
  · exact ⟨_, rfl⟩

/-- C1: on a pipeline state whose `transcript` field is the empty string,
`audio_content_node` returns `final_status = FAIL` with the fixed
explanatory report, issues no language-model call, and leaves
`compliance_results` untouched (so it remains empty when it was empty). -/
theorem claim_C1 (llm : String) (s : AuditState) (h : s.transcript = some "") :
    audio_content_node llm s =
      ({ final_status := some (.str "FAIL")
         final_report :=
           some (.str "Audit skipped because video processing failed (No transcript)") },
       0) ∧
    (applyUpdate s (audio_content_node llm s).1).compliance_results =
      s.compliance_results := by
  have hc : s.transcript.getD "" = "" := by rw [h]; rfl
  constructor
  · simp [audio_content_node, hc]
  · simp [audio_content_node, hc, applyUpdate]

theorem claim_C1_witness :
    audio_content_node "irrelevant"
        { transcript := some "", compliance_results := some (.arr []) } =
      ({ final_status := some (.str "FAIL")
         final_report :=
           some (.str "Audit skipped because video processing failed (No transcript)") },
       0) ∧
    (applyUpdate { transcript := some "", compliance_results := some (.arr []) }
        (audio_content_node "irrelevant"
          { transcript := some "", compliance_results := some (.arr []) }).1).compliance_results =
      some (Json.arr []) :=
  claim_C1 "irrelevant" { transcript := some "", compliance_results := some (.arr []) } rfl

/-- C2: the code does NOT strip fencing and parse identically — the typo
`(.?)` in the pattern (instead of `(.*?)`) makes `re.search` return `None`
on every fenced well-formed JSON object, so the fenced form of the
specification's example lands in the exception handler with
`final_status = FAIL` and an `AttributeError` recorded, while the unfenced
form parses to PASS.  This contradicts both the specification and the
evident intent of the fencing branch, so it is a code bug. -/
theorem claim_C2_divergence :
    auditParse contentPassFenced =
      { errors := some ["AttributeError: NoneType object has no attribute group"]
        final_status := some (.str "FAIL") } ∧
    auditParse contentPassDemo =
      { compliance_results := some (.arr [])
        final_status := some (.str "PASS")
        final_report := some (.str "ok") } :=
  ⟨rfl, rfl⟩

/-- C3 counterexample: a completed pipeline run (successful extraction
with a non-empty transcript, then adjudication) in which the model replies
with status `UNKNOWN` ends with `final_status = UNKNOWN`: the code copies
the model's `status` value verbatim, so the claimed invariant
`final_status ∈ {PASS, FAIL}` fails. -/
theorem claim_C3_counterexample :
    (runPipeline envOkDemo contentUnknownDemo initDemo).1.final_status =
      some (.str "UNKNOWN") := rfl

/-- C3 as amended: after a completed run `final_status` is always set, and
it is PASS or FAIL provided that whenever the adjudicator's parse step
produces a status value at all, that value is the string PASS or FAIL
(which holds on every short-circuit, error and defaulted path; only a
model reply carrying a different `status` value escapes the set). -/
theorem claim_C3_amended (env : IndexEnv) (llm url vid : String)
    (h : ∀ j, (auditParse llm).final_status = some j →
      j = .str "PASS" ∨ j = .str "FAIL") :
    (runPipeline env llm (initial_inputs url vid)).1.final_status =
      some (.str "PASS") ∨
    (runPipeline env llm (initial_inputs url vid)).1.final_status =
      some (.str "FAIL") := by
  have key : ∀ s1 : AuditState,
      (applyUpdate s1 (audio_content_node llm s1).1).final_status =
        some (.str "PASS") ∨
      (applyUpdate s1 (audio_content_node llm s1).1).final_status =
        some (.str "FAIL") := by
    intro s1
    by_cases hc : s1.transcript.getD "" = ""
    · right
      simp [audio_content_node, hc, applyUpdate]
    · obtain ⟨j, hj⟩ := auditParse_final_status_isSome llm
      rcases h j hj with h1 | h1
      · left
        simp [audio_content_node, hc, applyUpdate, hj, h1]
      · right
        simp [audio_content_node, hc, applyUpdate, hj, h1]
  exact key _

theorem claim_C3_amended_witness :
    (runPipeline envOkDemo contentPassDemo initDemo).1.final_status =
      some (Json.str "PASS") ∨
    (runPipeline envOkDemo contentPassDemo initDemo).1.final_status =
      some (Json.str "FAIL") :=
  claim_C3_amended envOkDemo contentPassDemo
    "https://www.youtube.com/watch?v=abc" "vid_1"
    (fun j hj => by
      have h0 : (auditParse contentPassDemo).final_status =
          some (Json.str "PASS") := rfl
      rw [h0] at hj
      exact Or.inl (Option.some.inj hj).symm)

/-- C4 counterexample: a completed run in which the model replies
`status = PASS` together with a non-empty `compliance_results` array ends
with `final_status = PASS` and that non-empty array: the code enforces no
relation between the two fields, so the claimed invariant fails. -/
theorem claim_C4_counterexample :
    (runPipeline envOkDemo contentPassWithIssue initDemo).1.final_status =
      some (.str "PASS") ∧
    (runPipeline envOkDemo contentPassWithIssue initDemo).1.compliance_results =
      some (.arr [issueCritical]) ∧
    Json.arr [issueCritical] ≠ Json.arr [] :=
  ⟨rfl, rfl, by simp⟩

/-- C4 as amended: in a completed run, `final_status = PASS` implies
`compliance_results` is empty provided the model's parsed reply itself
pairs a PASS status with an empty `compliance_results` array (as the
prompt instructs); the code copies both fields from the reply without
cross-checking them. -/
theorem claim_C4_amended (env : IndexEnv) (llm url vid : String)
    (h : (auditParse llm).final_status = some (.str "PASS") →
      (auditParse llm).compliance_results = some (.arr []))
    (hp : (runPipeline env llm (initial_inputs url vid)).1.final_status =
      some (.str "PASS")) :
    (runPipeline env llm (initial_inputs url vid)).1.compliance_results =
      some (.arr []) := by
  have key : ∀ s1 : AuditState,
      (applyUpdate s1 (audio_content_node llm s1).1).final_status =
        some (.str "PASS") →
      (applyUpdate s1 (audio_content_node llm s1).1).compliance_results =
        some (.arr []) := by
    intro s1 hp1
    by_cases hc : s1.transcript.getD "" = ""
    · exfalso
      simp [audio_content_node, hc, applyUpdate] at hp1
    · obtain ⟨j, hj⟩ := auditParse_final_status_isSome llm
      simp [audio_content_node, hc, applyUpdate, hj] at hp1
      have hpass : (auditParse llm).final_status = some (.str "PASS") := by
        rw [hj, hp1]
      have hcr := h hpass
      simp [audio_content_node, hc, applyUpdate, hcr]
  exact key _ hp

theorem claim_C4_amended_witness :
    (runPipeline envOkDemo contentPassDemo initDemo).1.compliance_results =
      some (Json.arr []) :=
  claim_C4_amended envOkDemo contentPassDemo
    "https://www.youtube.com/watch?v=abc" "vid_1" (fun _ => rfl) rfl

/-- C5 counterexample: the valid JSON object missing the required `status`
key (but carrying a `final_report`) is handled with `final_status = FAIL`,
yet with `errors` unset and a non-default report — the code does not treat
missing required keys as a parse failure at all, it silently defaults
them, so the claimed "non-empty errors sequence (or the default report)"
fails on this input. -/
theorem claim_C5_counterexample :
    (auditParse contentMissingStatus).final_status = some (.str "FAIL") ∧
    (auditParse contentMissingStatus).errors = none ∧
    (auditParse contentMissingStatus).final_report = some (.str "x") ∧
    Json.str "x" ≠ Json.str "No report generated" :=
  ⟨rfl, rfl, rfl, by simp⟩

/-- C5 as amended: the adjudication never raises an uncaught exception on
a malformed reply.  A reply that fails to parse as JSON (and likewise the
fencing `AttributeError`) yields `final_status = FAIL` with the raised
message as the single recorded error; a reply that parses to a JSON object
is never a parse failure, whatever keys it is missing: the missing keys
are defaulted fail-closed (`status` to FAIL, `compliance_results` to the
empty array, `final_report` to the fixed placeholder) and no error is
recorded. -/
theorem claim_C5_amended (content : String) :
    (∀ e, parsedResponse content = .error e →
      auditParse content =
        { errors := some [e], final_status := some (.str "FAIL") }) ∧
    (∀ kvs, parsedResponse content = .ok (.obj kvs) →
      (auditParse content).errors = none ∧
      (auditParse content).final_status =
        some (jlookupD kvs "status" (.str "FAIL")) ∧
      (auditParse content).compliance_results =
        some (jlookupD kvs "compliance_results" (.arr [])) ∧
      (auditParse content).final_report =
        some (jlookupD kvs "final_report" (.str "No report generated"))) := by
  constructor
  · intro e he
    unfold auditParse
    rw [he]
  · intro kvs hk
    unfold auditParse
    rw [hk]
    exact ⟨rfl, rfl, rfl, rfl⟩

theorem claim_C5_amended_witness :
    auditParse "nope" =
      { errors := some ["Expecting value"]
        final_status := some (Json.str "FAIL") } :=
  (claim_C5_amended "nope").1 "Expecting value" rfl

/-- C6: a successfully parsed adjudicator JSON object maps to the state
update that reads each key with its fail-closed default: `status`
defaulting to FAIL, `compliance_results` defaulting to the empty array,
`final_report` defaulting to the fixed placeholder. -/
theorem claim_C6 (content : String) (kvs : List (String × Json))
    (h : parsedResponse content = .ok (.obj kvs)) :
    auditParse content =
      { compliance_results := some (jlookupD kvs "compliance_results" (.arr []))
        final_status := some (jlookupD kvs "status" (.str "FAIL"))
        final_report := some (jlookupD kvs "final_report" (.str "No report generated")) } := by
  unfold auditParse
  rw [h]

theorem claim_C6_witness :
    auditParse contentPassDemo =
      { compliance_results := some (Json.arr [])
        final_status := some (Json.str "PASS")
        final_report := some (Json.str "ok") } :=
  (claim_C6 contentPassDemo
    [("status", .str "PASS"), ("compliance_results", .arr []),
     ("final_report", .str "ok")] rfl).trans rfl

/-- C7: the poll loop of `wait_for_processing`, driven by any sequence of
stubbed responses: a 200 response whose body has state `Processed` returns
that response's raw payload after the one poll; state `Failed` fails with
the processing error; state `Quarantined` fails with the content-rejected
error, with exactly one poll issued regardless of any further stubbed
responses; a 200 response whose body is an object in any other state (or
with no state) continues polling; and any non-200 response fails
immediately after its single poll, with no retry. -/
theorem claim_C7 (r : PollResponse) (rs : List PollResponse) :
    (r.status_code ≠ 200 →
      wait_for_processing (r :: rs) = (.transient, 1)) ∧
    (r.status_code = 200 → pollState r = some (.str "Processed") →
      wait_for_processing (r :: rs) = (.processed r.data, 1)) ∧
    (r.status_code = 200 → pollState r = some (.str "Failed") →
      wait_for_processing (r :: rs) = (.procFailed, 1)) ∧
    (r.status_code = 200 → pollState r = some (.str "Quarantined") →
      wait_for_processing (r :: rs) = (.quarantined, 1)) ∧
    (∀ kvs, r.status_code = 200 → r.data = .obj kvs →
      pollState r ≠ some (.str "Processed") →
      pollState r ≠ some (.str "Failed") →
      pollState r ≠ some (.str "Quarantined") →
      wait_for_processing (r :: rs) =
        ((wait_for_processing rs).1, (wait_for_processing rs).2 + 1)) := by
  rcases r with ⟨code, data⟩
  refine ⟨?_, ?_, ?_, ?_, ?_⟩
  · intro hne
    simp [wait_for_processing, hne]
  · intro hcode hst
    have hc2 : code = 200 := hcode
    cases data <;> simp [pollState] at hst
    case obj kvs =>
      simp [wait_for_processing, hc2, hst]
  · intro hcode hst
    have hc2 : code = 200 := hcode
    cases data <;> simp [pollState] at hst
    case obj kvs =>
      simp [wait_for_processing, hc2, hst]
  · intro hcode hst
    have hc2 : code = 200 := hcode
    cases data <;> simp [pollState] at hst
    case obj kvs =>
      simp [wait_for_processing, hc2, hst]
  · intro kvs hcode hdata h1 h2 h3
    have hc2 : code = 200 := hcode
    cases hdata
    simp only [pollState] at h1 h2 h3
    rcases hst : jlookup kvs "state" with _ | j
    · simp [wait_for_processing, hc2, hst]
    · cases j
      case str s =>
        have hs1 : s ≠ "Processed" := fun he => h1 (by rw [hst, he])
        have hs2 : s ≠ "Failed" := fun he => h2 (by rw [hst, he])
        have hs3 : s ≠ "Quarantined" := fun he => h3 (by rw [hst, he])
        simp [wait_for_processing, hc2, hst, hs1, hs2, hs3]
      all_goals simp [wait_for_processing, hc2, hst]

theorem claim_C7_witness :
    wait_for_processing
        [⟨200, .obj [("state", .str "Quarantined")]⟩,
         ⟨200, .obj [("state", .str "Processed")]⟩] =
      (.quarantined, 1) :=
  ((claim_C7 ⟨200, .obj [("state", .str "Quarantined")]⟩
    [⟨200, .obj [("state", .str "Processed")]⟩]).2.2.2.1) rfl rfl

/-- C9 counterexample: a parsed reply whose single compliance issue
carries the unknown severity `BANANA` is accepted verbatim into
`compliance_results` with no error recorded — nothing in the adjudication
path validates severity values, so the claimed validation error does not
occur. -/
theorem claim_C9_counterexample :
    (auditParse contentBadSeverity).compliance_results =
      some (.arr [issueBadSeverity]) ∧
    (auditParse contentBadSeverity).errors = none ∧
    ¬("BANANA" = "INFO" ∨ "BANANA" = "WARNING" ∨ "BANANA" = "CRITICAL") :=
  ⟨rfl, rfl, by decide⟩

/-- C9 as amended: on every successfully parsed reply the adjudication
copies the `compliance_results` value verbatim — unknown severity strings
included — and records no error; severity values are not validated
anywhere in the pipeline. -/
theorem claim_C9_amended (content : String) (kvs : List (String × Json))
    (h : parsedResponse content = .ok (.obj kvs)) :
    (auditParse content).compliance_results =
      some (jlookupD kvs "compliance_results" (.arr [])) ∧
    (auditParse content).errors = none := by
  unfold auditParse
  rw [h]
  exact ⟨rfl, rfl⟩

theorem claim_C9_amended_witness :
    (auditParse contentBadSeverity).compliance_results =
      some (Json.arr [issueBadSeverity]) ∧
    (auditParse contentBadSeverity).errors = none :=
  ⟨((claim_C9_amended contentBadSeverity
      [("status", .str "FAIL"),
       ("compliance_results", .arr [issueBadSeverity]),
       ("final_report", .str "r")] rfl).1).trans rfl,
   (claim_C9_amended contentBadSeverity
      [("status", .str "FAIL"),
       ("compliance_results", .arr [issueBadSeverity]),
       ("final_report", .str "r")] rfl).2⟩

/-- C10: whenever anything raised inside the extraction node's `try`
(unsupported URL, download, upload, polling or extraction failure), the
node returns the fixed failure record — the error message, `final_status =
FAIL`, `transcript = ""` and `ocr_text = []`.  The graph edge into the
adjudicator is unconditional, but the merged state then satisfies the
empty-transcript precondition, so the adjudicator short-circuits: zero
language-model calls, and the skip report with `final_status = FAIL`. -/
theorem claim_C10 (env : IndexEnv) (s : AuditState) (llm e : String)
    (h : runIndexer env s.video_url = .error e) :
    index_video_node env s =
      { errors := some [e]
        final_status := some (.str "FAIL")
        transcript := some ""
        ocr_text := some [] } ∧
    (audio_content_node llm (applyUpdate s (index_video_node env s))).2 = 0 ∧
    (audio_content_node llm (applyUpdate s (index_video_node env s))).1 =
      { final_status := some (.str "FAIL")
        final_report :=
          some (.str "Audit skipped because video processing failed (No transcript)") } := by
  have h1 : index_video_node env s =
      { errors := some [e]
        final_status := some (.str "FAIL")
        transcript := some ""
        ocr_text := some [] } := by
    unfold index_video_node
    rw [h]
  refine ⟨h1, ?_, ?_⟩ <;> simp [h1, applyUpdate, audio_content_node]

theorem claim_C10_witness :
    index_video_node envOkDemo (initial_inputs "https://example.com/v" "vid_1") =
      { errors := some ["Please provide a valid URL for this test."]
        final_status := some (Json.str "FAIL")
        transcript := some ""
        ocr_text := some [] } ∧
    (audio_content_node "irrelevant"
      (applyUpdate (initial_inputs "https://example.com/v" "vid_1")
        (index_video_node envOkDemo
          (initial_inputs "https://example.com/v" "vid_1")))).2 = 0 ∧
    (audio_content_node "irrelevant"
      (applyUpdate (initial_inputs "https://example.com/v" "vid_1")
        (index_video_node envOkDemo
          (initial_inputs "https://example.com/v" "vid_1")))).1 =
      { final_status := some (Json.str "FAIL")
        final_report :=
          some (Json.str "Audit skipped because video processing failed (No transcript)") } :=
  claim_C10 envOkDemo (initial_inputs "https://example.com/v" "vid_1")
    "irrelevant" "Please provide a valid URL for this test." rfl

/-! ### Lemmas for the `extract_data` claim -/

theorem exceptBind_ok (a : α) (f : α → Except String β) :
    (Except.ok a >>= f) = f a := rfl

theorem exceptBind_err (e : String) (f : α → Except String β) :
    ((Except.error e : Except String α) >>= f) = .error e := rfl

theorem exceptMap_ok (f : α → β) (a : α) :
    Except.map f (Except.ok a : Except String α) = .ok (f a) := rfl

theorem exceptMap_err (f : α → β) (e : String) :
    Except.map f (Except.error e : Except String α) = .error e := rfl

/-- Reading `t.get("text", "")` from one encoded fragment. -/
theorem pyGet_text_encodeFragment (f : VIFragment) :
    pyDictGetD (encodeFragment f) "text" (.str "") =
      .ok (.str (f.text.getD "")) := by
  cases hf : f.text <;>
    simp [encodeFragment, pyDictGetD, pyDictGet, jlookup, hf, exceptMap_ok]

/-- The `t.get("text", "")` loop body over encoded fragments. -/
theorem mapExcept_text_frags (l : List VIFragment) :
    mapExcept (fun t => pyDictGetD t "text" (.str "")) (l.map encodeFragment) =
      .ok (l.map (fun f => Json.str (f.text.getD ""))) := by
  induction l with
  | nil => rfl
  | cons f t ih =>
    simp only [List.map_cons, mapExcept, pyGet_text_encodeFragment,
               exceptBind_ok, ih]

/-- One outer-loop iteration on an encoded video produces exactly the
defaulted fragment texts of that video. -/
theorem videoInsights_encode (v : VIVideo) :
    videoInsights (encodeVideo v) =
      .ok (v.tTexts.map Json.str, v.oTexts.map Json.str) := by
  rcases v with ⟨ins⟩
  cases ins with
  | none => rfl
  | some i =>
    rcases i with ⟨ts, os⟩
    have h1 : pyDictGetD (encodeVideo ⟨some ⟨ts, os⟩⟩) "insights" (.obj []) =
        .ok (encodeInsights ⟨ts, os⟩) := by
      simp [encodeVideo, pyDictGetD, pyDictGet, jlookup, exceptMap_ok]
    have h2 : pyDictGetD (encodeInsights ⟨ts, os⟩) "transcript" (.arr []) =
        .ok (.arr ((ts.getD []).map encodeFragment)) := by
      cases ts <;> cases os <;>
        simp [encodeInsights, pyDictGetD, pyDictGet, jlookup, exceptMap_ok]
    have h3 : pyDictGetD (encodeInsights ⟨ts, os⟩) "ocr" (.arr []) =
        .ok (.arr ((os.getD []).map encodeFragment)) := by
      cases ts <;> cases os <;>
        simp [encodeInsights, pyDictGetD, pyDictGet, jlookup, exceptMap_ok]
    simp only [videoInsights, h1, exceptBind_ok, h2, h3, asList,
               mapExcept_text_frags, VIVideo.tTexts, VIVideo.oTexts]
    cases ts <;> cases os <;> simp

theorem mapExcept_videoInsights (vs : List VIVideo) :
    mapExcept videoInsights (vs.map encodeVideo) =
      .ok (vs.map fun v => (v.tTexts.map Json.str, v.oTexts.map Json.str)) := by
  induction vs with
  | nil => rfl
  | cons v t ih =>
    simp only [List.map_cons, mapExcept, videoInsights_encode, exceptBind_ok, ih]

theorem mapExcept_asStr_map_str (l : List String) :
    mapExcept asStr (l.map Json.str) = .ok l := by
  induction l with
  | nil => rfl
  | cons s t ih => simp [mapExcept, asStr, ih, exceptBind_ok]

theorem flatten_map_str (vs : List VIVideo) (g : VIVideo → List String) :
    (vs.map (fun v => (g v).map Json.str)).flatten =
      ((vs.map g).flatten).map Json.str := by
  induction vs with
  | nil => rfl
  | cons v t ih => simp [ih]

theorem mapExcept_asStr_flatten (vs : List VIVideo) :
    mapExcept asStr ((vs.map (fun v => v.tTexts.map Json.str)).flatten) =
      .ok ((vs.map VIVideo.tTexts).flatten) := by
  rw [flatten_map_str vs VIVideo.tTexts]
  exact mapExcept_asStr_map_str _

/-- C8: on every well-shaped raw extraction result — every field of which
may independently be missing — `extract_data` never fails: it returns the
transcript fragment texts in document order across all videos joined by
single spaces, all OCR fragment texts in source order, and metadata whose
duration and source id are taken from the payload when present and default
to absent otherwise (in particular, a payload with no `videos` key yields
transcript `""` and OCR `[]`, since both flattened lists are then
empty). -/
theorem claim_C8 (p : VIPayload) :
    extract_data (encodePayload p) =
      .ok { transcript :=
              String.intercalate " " (((p.videos.getD []).map VIVideo.tTexts).flatten)
            ocr_text :=
              (((p.videos.getD []).map VIVideo.oTexts).flatten).map Json.str
            metadata := { duration := p.summarizedInsights.join
                          video_id := p.id.map Json.str
                          platform := "youtube" } } := by
  rcases p with ⟨vs, si, idv⟩
  have h1 : pyDictGetD (encodePayload ⟨vs, si, idv⟩) "videos" (.arr []) =
      .ok (.arr ((vs.getD []).map encodeVideo)) := by
    rcases vs with _ | vs <;> rcases si with _ | si <;> rcases idv with _ | idv <;>
      simp [encodePayload, pyDictGetD, pyDictGet, jlookup, exceptMap_ok]
  have h2 : pyDictGetD (encodePayload ⟨vs, si, idv⟩) "summarizedInsights"
        (.obj []) =
      .ok (.obj (match si.join with
                 | some dv => [("duration", dv)]
                 | none => [])) := by
    rcases vs with _ | vs <;> rcases si with _ | (_ | dv) <;>
        rcases idv with _ | idv <;>
      simp [encodePayload, pyDictGetD, pyDictGet, jlookup, exceptMap_ok,
            Option.join]
  have h3 : pyDictGet (.obj (match si.join with
                 | some dv => [("duration", dv)]
                 | none => [])) "duration" = .ok si.join := by
    rcases si with _ | (_ | dv) <;> simp [pyDictGet, jlookup, Option.join]
  have h4 : pyDictGet (encodePayload ⟨vs, si, idv⟩) "id" =
      .ok (idv.map Json.str) := by
    rcases vs with _ | vs <;> rcases si with _ | si <;> rcases idv with _ | idv <;>
      simp [encodePayload, pyDictGet, jlookup]
  simp only [extract_data, h1, exceptBind_ok, asList, mapExcept_videoInsights,
             h2, h3, h4]
  have h5 : ((((vs.getD []).map
        (fun v => (v.tTexts.map Json.str, v.oTexts.map Json.str))).map
          Prod.fst).flatten) =
      ((vs.getD []).map (fun v => v.tTexts.map Json.str)).flatten := by
    simp [List.map_map, Function.comp_def]
  have h6 : ((((vs.getD []).map
        (fun v => (v.tTexts.map Json.str, v.oTexts.map Json.str))).map
          Prod.snd).flatten) =
      (((vs.getD []).map VIVideo.oTexts).flatten).map Json.str := by
    rw [show ((vs.getD []).map
          (fun v => (v.tTexts.map Json.str, v.oTexts.map Json.str))).map
            Prod.snd =
        (vs.getD []).map (fun v => v.oTexts.map Json.str) by
      simp [List.map_map, Function.comp_def]]
    exact flatten_map_str _ VIVideo.oTexts
  rw [h5, h6, mapExcept_asStr_flatten, exceptBind_ok]

end BrandGuardian
